import Mathlib

/-!
# Token-based authentication (Practical 6) — verification development

Shallow embedding of the authentication subsystem of the repository:
registration, login, password hashing, JWT issuance/verification, and the
authorization gate on protected routes, as implemented in the Hono handlers
of `src/Practical6-Token_Based_Authentication/README.md`.

Library collaborators (`Bun.password`, Hono's `jwt` middleware and
`sign`/`verify`) are not part of the repository's source; they are modelled
from the specification (each such definition carries a
`Modelled from the spec:` doc comment).

Time is modelled as Unix seconds (`Nat`); JSON response bodies as a small
inductive; the random bcrypt salt of each `hash` call is passed as an
explicit oracle argument.
-/

namespace Auth

/-- JSON values, used to model response bodies built by `c.json(...)`. -/
inductive Json where
  | str (s : String)
  | num (n : Int)
  | null
  | obj (fields : List (String × Json))
  | arr (elems : List Json)

/-- An HTTP response: status code and JSON body.  `c.json(x)` in Hono
defaults to status 200; `HTTPException(s, {message})` is modelled as status
`s` with body `{message}`. -/
structure Response where
  status : Nat
  body : Json

/-! ## PasswordHasher (models `Bun.password` with algorithm "bcrypt") -/

/-- Modelled from the spec: the bcrypt core digest (`Bun.password` is a
runtime library, not repository source).  The spec requires a one-way
function recomputable from the salt embedded in the encoded hash, with
ideal collision-freedom (`verify(p', hash(p))` false for `p' ≠ p`); we
model it as an injective function of `(salt, plaintext)`. -/
def mockDigest (salt plaintext : String) : String :=
  salt ++ ":" ++ plaintext

/-- A self-describing encoded hash: algorithm identifier, work factor,
salt and digest, as the spec describes `encodedHash`. -/
structure EncodedHash where
  alg : String
  cost : Nat
  salt : String
  digest : String
deriving DecidableEq, Repr

/-- Modelled from the spec: `Bun.password.hash(p, {algorithm: "bcrypt",
cost: 4})` with the per-call random salt passed explicitly. -/
def hashPassword (salt plaintext : String) : EncodedHash :=
  { alg := "bcrypt", cost := 4, salt := salt, digest := mockDigest salt plaintext }

/-- Modelled from the spec: `Bun.password.verify(plaintext, stored,
"bcrypt")` — recomputes the digest with the embedded salt and compares. -/
def verifyPassword (plaintext : String) (stored : EncodedHash) : Bool :=
  mockDigest stored.salt plaintext == stored.digest

/-- The encoded-hash string as persisted in the `hashedPassword` column:
`$<alg>$<cost>$<salt>$<digest>`. -/
def encodeHash (h : EncodedHash) : String :=
  "$" ++ h.alg ++ "$" ++ toString h.cost ++ "$" ++ h.salt ++ "$" ++ h.digest

/-! ## Prisma data model (`User`, `Account`) and store operations -/

/-- `model User { id; email @unique; hashPassword }`. -/
structure User where
  id : String
  email : String
  hashedPassword : EncodedHash
deriving DecidableEq, Repr

/-- `model Account { id; userId; balance @default(0) }`. -/
structure Account where
  id : String
  userId : String
  balance : Int
deriving DecidableEq, Repr

/-- The database state seen through Prisma. -/
structure DB where
  users : List User
  accounts : List Account
deriving DecidableEq, Repr

/-- `prisma.user.findUnique({where: {email}})`. -/
def findByEmail (db : DB) (email : String) : Option User :=
  db.users.find? (fun u => u.email == email)

/-- `prisma.user.findUnique({where: {id}})`. -/
def findById (db : DB) (id : String) : Option User :=
  db.users.find? (fun u => u.id == id)

inductive PrismaError where
  | p2002  -- unique-constraint violation on `email`
deriving DecidableEq, Repr

/-- `prisma.user.create({data: {email, hashedPassword, Account: {create:
{balance: 0}}}})`: atomic insert, failing with code `P2002` when the
unique email already exists.  `newId`/`accountId` are the generated uuids,
passed as oracle arguments. -/
def createUser (db : DB) (email : String) (hash : EncodedHash)
    (newId accountId : String) : Except PrismaError DB :=
  if db.users.any (fun u => u.email == email) then
    .error .p2002
  else
    .ok { users := db.users ++ [⟨newId, email, hash⟩],
          accounts := db.accounts ++ [⟨accountId, newId, 0⟩] }

/-! ## Tokens (models Hono's `sign` / `jwt` middleware) -/

/-- JWT claims: `{sub, exp}` as built in the login handler. -/
structure Claims where
  sub : String
  exp : Nat
deriving DecidableEq, Repr

/-- Modelled from the spec: the decoded middle segment of a token — either
well-encoded claims or undecodable bytes (a malformed token). -/
inductive Payload where
  | claims (c : Claims)
  | garbage (s : String)
deriving DecidableEq, Repr

/-- The byte serialization of a payload (injective), over which the
signature is computed. -/
def payloadBytes : Payload → String
  | .claims c => "c:" ++ c.sub ++ "|" ++ toString c.exp
  | .garbage s => "g:" ++ s

/-- Modelled from the spec: the symmetric MAC over header+claims computed
with the configured key. -/
def mac (key : String) (p : Payload) : String :=
  "mac[" ++ key ++ "](" ++ payloadBytes p ++ ")"

/-- A three-segment token: header, payload, signature. -/
structure Token where
  header : String
  payload : Payload
  sig : String
deriving DecidableEq, Repr

/-- The wire form of a token — three segments joined by `.` — as returned
in the login response body. -/
def tokenString (t : Token) : String :=
  t.header ++ "." ++ payloadBytes t.payload ++ "." ++ t.sig

/-- Modelled from the spec: Hono's `sign(payload, secret)`. -/
def signToken (key : String) (c : Claims) : Token :=
  { header := "hdr", payload := .claims c, sig := mac key (.claims c) }

inductive TokenError where
  | malformed
  | sigInvalid
  | expired
deriving DecidableEq, Repr

/-- Modelled from the spec: `TokenVerifier.verify` as performed by Hono's
`jwt` middleware — reject undecodable claims as `Malformed`, recompute and
compare the signature (`SignatureInvalid` on mismatch), then fail with
`Expired` if the current time is at or past `exp`; on success return the
subject identifier from `sub`. -/
def verifyToken (key : String) (now : Nat) (t : Token) : Except TokenError String :=
  match t.payload with
  | .garbage _ => .error .malformed
  | .claims c =>
    if t.sig ≠ mac key t.payload then .error .sigInvalid
    else if c.exp ≤ now then .error .expired
    else .ok c.sub

/-! ## Registration handler (`app.post("/register")`) -/

/-- The parsed JSON body of a register/login request; each field may be
absent (`undefined`). -/
structure CredBody where
  email : Option String
  password : Option String
deriving DecidableEq, Repr

/-- A 500 response, as produced by Hono's default error handler for an
uncaught exception. -/
def serverError : Response :=
  { status := 500, body := .obj [("message", .str "Internal Server Error")] }

/-- The register handler.  `body = none` models `c.req.json()` throwing on
a non-JSON body; a missing `password` makes `Bun.password.hash` throw, and
a missing `email` makes `prisma.user.create` throw a non-P2002 error —
each of those is rethrown by the handler (→ 500).  On a P2002
unique-violation it returns `{message: "Email already exists"}` (status
200), and on success `{message: "<email> created successfully"}`
(status 200). -/
def register (db : DB) (salt newId accountId : String)
    (body : Option CredBody) : Response × DB :=
  match body with
  | none => (serverError, db)
  | some b =>
    match b.password with
    | none => (serverError, db)
    | some p =>
      match b.email with
      | none => (serverError, db)
      | some e =>
        match createUser db e (hashPassword salt p) newId accountId with
        | .error .p2002 =>
          ({ status := 200, body := .obj [("message", .str "Email already exists")] }, db)
        | .ok db' =>
          ({ status := 200,
             body := .obj [("message", .str (e ++ " created successfully"))] }, db')

/-! ## Login handler (`app.post("/login")`) -/

/-- The hardcoded signing secret of the login handler and middleware. -/
def secret : String := "mySecretKey"

/-- The token ttl fixed in the login handler: `60 * 60` seconds. -/
def ttl : Nat := 60 * 60

/-- The claims minted at login: `{sub: user.id, exp: now + 60*60}`. -/
def issueClaims (subjectId : String) (now : Nat) : Claims :=
  { sub := subjectId, exp := now + ttl }

/-- The body of the `try` block of the login handler.  `.error ()` models
a thrown exception: a non-JSON body (`c.req.json()`), a missing field
making `findUnique`/`Bun.password.verify` throw, or the handler's own
`throw new HTTPException(401, ...)` on password mismatch.  An unknown
email is NOT an exception: the handler `return`s `{message: "User not
found"}` with default status 200. -/
def loginTry (db : DB) (now : Nat) (body : Option CredBody) : Except Unit Response :=
  match body with
  | none => .error ()
  | some b =>
    match b.email with
    | none => .error ()
    | some e =>
      match findByEmail db e with
      | none => .ok { status := 200, body := .obj [("message", .str "User not found")] }
      | some u =>
        match b.password with
        | none => .error ()
        | some p =>
          if verifyPassword p u.hashedPassword then
            .ok { status := 200,
                  body := .obj
                    [("message", .str "Login successful"),
                     ("token", .str (tokenString (signToken secret (issueClaims u.id now))))] }
          else .error ()

/-- The login handler: its `catch` block collapses every thrown error to
`HTTPException(401, {message: "Invalid credentials"})`. -/
def login (db : DB) (now : Nat) (body : Option CredBody) : Response :=
  match loginTry db now body with
  | .ok r => r
  | .error _ => { status := 401, body := .obj [("message", .str "Invalid credentials")] }

/-! ## Protected route (`jwt` middleware + `/protected/account/balance`) -/

/-- The JSON rendering of one account row under the Prisma select
`{balance: true, id: true}`. -/
def accountJson (a : Account) : Json :=
  .obj [("balance", .num a.balance), ("id", .str a.id)]

/-- The balance handler: looks up the user by the verified `sub` and
returns `{data: user}` where `user` is the select result
`{Account: [{balance, id}, ...]}` — or `{data: null}` when the lookup is
absent, passed through unchecked. -/
def balanceHandler (db : DB) (sub : String) : Response :=
  match findById db sub with
  | none => { status := 200, body := .obj [("data", .null)] }
  | some u =>
    { status := 200,
      body := .obj
        [("data", .obj
          [("Account",
            .arr ((db.accounts.filter (fun a => a.userId == u.id)).map accountJson))])] }

/-- The `Authorization` header, split into scheme and credential. -/
structure AuthHeader where
  scheme : String
  credential : Token
deriving DecidableEq, Repr

/-- Result of the authorization gate. -/
inductive GateResult where
  | rejected
  | authorized (sub : String)
deriving DecidableEq, Repr

/-- Modelled from the spec: the AuthorizationGate run by Hono's
`jwt({secret})` middleware on `/protected/*` — require a well-formed
`Bearer <token>` header, verify the token, and reject on any failure. -/
def authGate (key : String) (now : Nat) (auth : Option AuthHeader) : GateResult :=
  match auth with
  | none => .rejected
  | some h =>
    if h.scheme = "Bearer" then
      match verifyToken key now h.credential with
      | .error _ => .rejected
      | .ok sub => .authorized sub
    else .rejected

/-- The uniform rejection of the gate: `401 {message: "Unauthorized"}`. -/
def unauthorizedResponse : Response :=
  { status := 401, body := .obj [("message", .str "Unauthorized")] }

/-- `GET /protected/account/balance` behind the middleware: on rejection
the gate short-circuits with the uniform 401 and the handler never runs;
on success the handler receives the verified subject identifier. -/
def protectedBalance (key : String) (now : Nat) (db : DB)
    (auth : Option AuthHeader) : Response :=
  match authGate key now auth with
  | .rejected => unauthorizedResponse
  | .authorized sub => balanceHandler db sub

/-! ## Sample data used by closed counterexamples and witnesses -/

/-- A concrete store: one user `a@b.com` whose password is `right`,
hashed with salt `s1`, owning one account with balance 0. -/
def sampleDB : DB :=
  { users := [⟨"u1", "a@b.com", hashPassword "s1" "right"⟩],
    accounts := [⟨"acc1", "u1", 0⟩] }

/-- Replace every stored hash by its image under `f`, leaving ids, emails
and accounts unchanged — used to state that responses do not depend on the
stored hashes. -/
def maskHashes (f : EncodedHash → EncodedHash) (db : DB) : DB :=
  { users := db.users.map (fun u => { u with hashedPassword := f u.hashedPassword }),
    accounts := db.accounts }

/-! ## Helper lemmas -/

/-- Appending on the left is cancellative for strings. -/
theorem append_left_cancel {s a b : String} (h : s ++ a = s ++ b) : a = b := by
  have hd := congrArg String.data h
  simp only [String.data_append] at hd
  exact String.ext (List.append_cancel_left hd)

/-- Every normally returned login response has status 200; only the
`catch`-produced `HTTPException` carries 401. -/
theorem loginTry_ok_status (db : DB) (now : Nat) (body : Option CredBody)
    (r : Response) (h : loginTry db now body = .ok r) : r.status = 200 := by
  cases body with
  | none => simp [loginTry] at h
  | some b =>
    obtain ⟨be, bp⟩ := b
    cases be with
    | none => simp [loginTry] at h
    | some e =>
      cases hf : findByEmail db e with
      | none => simp [loginTry, hf] at h; simp [← h]
      | some u =>
        cases bp with
        | none => simp [loginTry, hf] at h
        | some p =>
          by_cases hv : verifyPassword p u.hashedPassword = true
          · simp [loginTry, hf, hv] at h; simp [← h]
          · simp [loginTry, hf, hv] at h

/-! ## Claim theorems -/

/-- C5: For every password p, `verify(p, hash(p))` returns true, and for
every p' ≠ p, `verify(p', hash(p))` returns false (round-trip correctness
of the password hasher). -/
theorem password_roundtrip (salt p p' : String) :
    verifyPassword p (hashPassword salt p) = true ∧
    (p' ≠ p → verifyPassword p' (hashPassword salt p) = false) := by
  constructor
  · simp [verifyPassword, hashPassword]
  · intro hne
    simp only [verifyPassword, hashPassword, mockDigest, beq_eq_false_iff_ne, ne_eq]
    intro h
    exact hne (append_left_cancel h)

/-- C5 witness at salt `"s"`, p `"pw1"`, p' `"pw2"`. -/
theorem password_roundtrip_witness :
    verifyPassword "pw1" (hashPassword "s" "pw1") = true ∧
    verifyPassword "pw2" (hashPassword "s" "pw1") = false :=
  ⟨(password_roundtrip "s" "pw1" "pw2").1,
   (password_roundtrip "s" "pw1" "pw2").2 (by decide)⟩

/-- C8: the exp claim placed at issuance time t is t + ttl with
ttl = 3600 s, hence strictly in the future at issuance time. -/
theorem exp_strictly_future (subjectId : String) (t : Nat) :
    t < (issueClaims subjectId t).exp ∧
    (issueClaims subjectId t).exp = t + ttl ∧ ttl = 3600 := by
  refine ⟨?_, rfl, rfl⟩
  simp [issueClaims, ttl]

/-- C4: verifying a signed token fails with `Expired` exactly when the
current time is at or past its exp claim (and succeeds with the subject
otherwise); in particular a token issued at t0 with the fixed ttl
verifies strictly before t0 + ttl and is `Expired` at or past t0 + ttl. -/
theorem token_expiry_boundary (key : String) (c : Claims) (subjectId : String)
    (t0 t : Nat) :
    verifyToken key t (signToken key c) =
      (if c.exp ≤ t then .error .expired else .ok c.sub) ∧
    verifyToken key t (signToken key (issueClaims subjectId t0)) =
      (if t < t0 + ttl then .ok subjectId else .error .expired) := by
  constructor
  · simp [verifyToken, signToken]
  · by_cases h : t < t0 + ttl
    · simp [verifyToken, signToken, issueClaims, h, Nat.not_le.mpr h]
    · simp [verifyToken, signToken, issueClaims, h, Nat.not_lt.mp h]

/-- C10: every exception thrown while handling a login request — a
non-JSON body included — is caught and collapsed to
`401 {message: "Invalid credentials"}`; the login endpoint never responds
400 or 500. -/
theorem login_collapses_exceptions (db : DB) (now : Nat) (body : Option CredBody) :
    (loginTry db now body = .error () →
      login db now body =
        { status := 401, body := .obj [("message", .str "Invalid credentials")] }) ∧
    login db now none =
      { status := 401, body := .obj [("message", .str "Invalid credentials")] } ∧
    (login db now body).status ≠ 400 ∧ (login db now body).status ≠ 500 := by
  refine ⟨fun h => by simp [login, h], rfl, ?_, ?_⟩ <;>
    cases hr : loginTry db now body with
    | error e => simp [login, hr]
    | ok r =>
      have hs := loginTry_ok_status db now body r hr
      simp [login, hr, hs]

/-- C10 witness: a non-JSON login body on the sample store collapses to
the uniform 401. -/
theorem login_collapses_exceptions_witness :
    login sampleDB 100 none =
      { status := 401, body := .obj [("message", .str "Invalid credentials")] } :=
  (login_collapses_exceptions sampleDB 100 none).1 rfl

/-- C9: a request to the protected balance endpoint whose token verifies
successfully but whose sub matches no stored user id is not an error: the
gate authorizes it and the handler responds 200 with `{data: null}`. -/
theorem balance_unknown_sub_null (key : String) (now : Nat) (db : DB)
    (auth : Option AuthHeader) (sub : String)
    (hg : authGate key now auth = .authorized sub)
    (hf : findById db sub = none) :
    protectedBalance key now db auth =
      { status := 200, body := .obj [("data", .null)] } := by
  simp [protectedBalance, hg, balanceHandler, hf]

/-- C9 witness: a well-signed unexpired token for the unknown subject
`ghost` against the sample store yields 200 `{data: null}`. -/
theorem balance_unknown_sub_null_witness :
    protectedBalance secret 100 sampleDB
      (some ⟨"Bearer", signToken secret (issueClaims "ghost" 50)⟩) =
      { status := 200, body := .obj [("data", .null)] } :=
  balance_unknown_sub_null secret 100 sampleDB
    (some ⟨"Bearer", signToken secret (issueClaims "ghost" 50)⟩) "ghost"
    (by decide) (by decide)

/-- C3: the authorization gate rejects every request whose bearer-token
extraction or verification fails — missing header, wrong scheme, or any
`verifyToken` error (malformed, invalid signature, expired) — responding
with the uniform `401 {message: "Unauthorized"}` independently of the
store (the protected handler is never executed); only a successfully
verified token reaches the handler, which receives the verified subject
identifier. -/
theorem gate_uniform_rejection (key : String) (now : Nat) (db : DB)
    (auth : Option AuthHeader) :
    (authGate key now auth = .rejected →
      protectedBalance key now db auth = unauthorizedResponse ∧
      ∀ db2, protectedBalance key now db2 auth = protectedBalance key now db auth) ∧
    (auth = none → authGate key now auth = .rejected) ∧
    (∀ h, auth = some h → h.scheme ≠ "Bearer" → authGate key now auth = .rejected) ∧
    (∀ h e, auth = some h → verifyToken key now h.credential = .error e →
      authGate key now auth = .rejected) ∧
    (∀ sub, authGate key now auth = .authorized sub →
      (∃ h, auth = some h ∧ h.scheme = "Bearer" ∧
        verifyToken key now h.credential = .ok sub) ∧
      protectedBalance key now db auth = balanceHandler db sub) := by
  refine ⟨?_, ?_, ?_, ?_, ?_⟩
  · intro hg
    exact ⟨by simp [protectedBalance, hg], fun db2 => by simp [protectedBalance, hg]⟩
  · intro h; subst h; rfl
  · intro h hsome hs; subst hsome; simp [authGate, hs]
  · intro h e hsome hv; subst hsome
    by_cases hs : h.scheme = "Bearer"
    · simp [authGate, hs, hv]
    · simp [authGate, hs]
  · intro sub hg
    cases auth with
    | none => simp [authGate] at hg
    | some h =>
      by_cases hs : h.scheme = "Bearer"
      · cases hv : verifyToken key now h.credential with
        | error e => simp [authGate, hs, hv] at hg
        | ok s =>
          simp [authGate, hs, hv] at hg
          subst hg
          exact ⟨⟨h, rfl, hs, hv⟩, by simp [protectedBalance, authGate, hs, hv]⟩
      · simp [authGate, hs] at hg

/-- C3 witness: a request with no Authorization header against the sample
store is rejected with the uniform 401 without touching the store. -/
theorem gate_uniform_rejection_witness :
    authGate secret 100 none = GateResult.rejected ∧
    protectedBalance secret 100 sampleDB none = unauthorizedResponse := by
  have h := gate_uniform_rejection secret 100 sampleDB none
  exact ⟨h.2.1 rfl, (h.1 (h.2.1 rfl)).1⟩

/-- C1 (code bug): on the concrete sample store, a login with a
never-registered email returns `200 {message: "User not found"}` while a
login with a registered email and wrong password returns
`401 {message: "Invalid credentials"}` — the two failure causes are
externally distinguishable, against the uniform-failure requirement the
README itself states (generic error messages, consistent error
responses). -/
theorem login_leaks_email_existence :
    login sampleDB 100 (some ⟨some "ghost@x.com", some "pw"⟩) =
      { status := 200, body := .obj [("message", .str "User not found")] } ∧
    login sampleDB 100 (some ⟨some "a@b.com", some "wrong"⟩) =
      { status := 401, body := .obj [("message", .str "Invalid credentials")] } ∧
    (200 : Nat) ≠ 401 :=
  ⟨rfl, rfl, by decide⟩

/-- C2 counterexample: on the concrete sample store, registering the
already-present email `a@b.com` responds with status 200 — the very same
status as registering the fresh email `c@d.com` — so there is no distinct
409-equivalent status on duplicates, and the fresh-email success is 200,
not 201. -/
theorem register_no_distinct_status_counterexample :
    (register sampleDB "s2" "u2" "acc2" (some ⟨some "a@b.com", some "pw"⟩)).1.status = 200 ∧
    (register sampleDB "s2" "u2" "acc2" (some ⟨some "c@d.com", some "pw"⟩)).1.status = 200 ∧
    (200 : Nat) ≠ 409 ∧ (200 : Nat) ≠ 201 :=
  ⟨rfl, rfl, by decide, by decide⟩

/-- C2 amended: a duplicate email is distinguished only by the response
body `{message: "Email already exists"}` (the store unchanged), while a
fresh email yields `{message: "<email> created successfully"}` and the
new user and account rows; both responses carry the same default status
200 — no 409/201 status distinction. -/
theorem register_duplicate_message_only (db : DB) (salt newId accountId e p : String) :
    (db.users.any (fun u => u.email == e) = true →
      register db salt newId accountId (some ⟨some e, some p⟩) =
        ({ status := 200, body := .obj [("message", .str "Email already exists")] }, db)) ∧
    (db.users.any (fun u => u.email == e) = false →
      register db salt newId accountId (some ⟨some e, some p⟩) =
        ({ status := 200,
           body := .obj [("message", .str (e ++ " created successfully"))] },
         { users := db.users ++ [⟨newId, e, hashPassword salt p⟩],
           accounts := db.accounts ++ [⟨accountId, newId, 0⟩] })) := by
  constructor <;> intro h <;> simp [register, createUser, h]

/-- C2 amended witness: duplicate and fresh registration on the sample
store. -/
theorem register_duplicate_message_only_witness :
    register sampleDB "s2" "u2" "acc2" (some ⟨some "a@b.com", some "pw"⟩) =
      ({ status := 200, body := .obj [("message", .str "Email already exists")] },
       sampleDB) ∧
    register sampleDB "s2" "u2" "acc2" (some ⟨some "c@d.com", some "pw"⟩) =
      ({ status := 200,
         body := .obj [("message", .str ("c@d.com" ++ " created successfully"))] },
       { users := sampleDB.users ++ [⟨"u2", "c@d.com", hashPassword "s2" "pw"⟩],
         accounts := sampleDB.accounts ++ [⟨"acc2", "u2", 0⟩] }) :=
  ⟨(register_duplicate_message_only sampleDB "s2" "u2" "acc2" "a@b.com" "pw").1 (by decide),
   (register_duplicate_message_only sampleDB "s2" "u2" "acc2" "c@d.com" "pw").2 (by decide)⟩

/-- Every register response has status 200 or 500: success and duplicate
both render through `c.json` (default 200), every thrown error propagates
to the 500 default handler. -/
theorem register_status_cases (db : DB) (salt newId accountId : String)
    (body : Option CredBody) :
    (register db salt newId accountId body).1.status = 200 ∨
    (register db salt newId accountId body).1.status = 500 := by
  cases body with
  | none => right; rfl
  | some b =>
    obtain ⟨be, bp⟩ := b
    cases bp with
    | none => right; rfl
    | some p =>
      cases be with
      | none => right; rfl
      | some e =>
        cases h : createUser db e (hashPassword salt p) newId accountId with
        | error err => cases err; left; simp [register, h]
        | ok db2 => left; simp [register, h]

/-- C6 counterexample: on an empty store, registering with empty email
and empty password is accepted with status 200 (not rejected with 400),
and a body with a missing password yields status 500 (the thrown error is
rethrown), not 400 — there is no input-shape validation. -/
theorem register_no_validation_counterexample :
    (register ⟨[], []⟩ "s" "u" "acc" (some ⟨some "", some ""⟩)).1.status = 200 ∧
    (register ⟨[], []⟩ "s" "u" "acc" (some ⟨some "e@f.com", none⟩)).1.status = 500 ∧
    (200 : Nat) ≠ 400 ∧ (500 : Nat) ≠ 400 :=
  ⟨rfl, rfl, by decide, by decide⟩

/-- C6 amended: the registration flow performs no input-shape validation
and never responds 400: a missing body, password or email makes the
thrown exception propagate as the 500-equivalent server error, while an
empty email and password are hashed and stored like any other value,
responding 200 when the empty email is fresh. -/
theorem register_never_400 (db : DB) (salt newId accountId : String)
    (body : Option CredBody) :
    (register db salt newId accountId body).1.status ≠ 400 ∧
    (body = none → register db salt newId accountId body = (serverError, db)) ∧
    (∀ b, body = some b → b.password = none →
      register db salt newId accountId body = (serverError, db)) ∧
    (∀ b p, body = some b → b.email = none → b.password = some p →
      register db salt newId accountId body = (serverError, db)) ∧
    (db.users.any (fun u => u.email == "") = false →
      (register db salt newId accountId (some ⟨some "", some ""⟩)).1.status = 200) := by
  refine ⟨?_, ?_, ?_, ?_, ?_⟩
  · rcases register_status_cases db salt newId accountId body with h | h <;> omega
  · intro h; subst h; rfl
  · intro b hb hp; subst hb
    obtain ⟨be, bp⟩ := b
    cases hp; rfl
  · intro b p hb he hp; subst hb
    obtain ⟨be, bp⟩ := b
    cases he; cases hp; rfl
  · intro h
    simp [register, createUser, h]

/-- C6 amended witness: empty store, empty credentials accepted; missing
password propagates as 500. -/
theorem register_never_400_witness :
    register (⟨[], []⟩ : DB) "s" "u" "acc" (some ⟨some "e@f.com", none⟩) =
      (serverError, (⟨[], []⟩ : DB)) ∧
    (register (⟨[], []⟩ : DB) "s" "u" "acc" (some ⟨some "", some ""⟩)).1.status = 200 := by
  have h := register_never_400 (⟨[], []⟩ : DB) "s" "u" "acc" (some ⟨some "e@f.com", none⟩)
  have h2 := register_never_400 (⟨[], []⟩ : DB) "s" "u" "acc" (some ⟨some "", some ""⟩)
  exact ⟨h.2.2.1 ⟨some "e@f.com", none⟩ rfl rfl, h2.2.2.2.2 (by decide)⟩

/-- Looking a user up by id in a hash-masked store finds the masked image
of the user the original lookup finds: `findById` never inspects the
stored hash. -/
theorem findById_maskHashes (f : EncodedHash → EncodedHash) (db : DB) (sub : String) :
    findById (maskHashes f db) sub =
      (findById db sub).map (fun u => { u with hashedPassword := f u.hashedPassword }) := by
  unfold findById maskHashes
  simp [List.find?_map]
  rfl

/-- C7: no operation leaks the plaintext password or the stored hash —
(i) the persisted encoded hash is never equal to the plaintext it was
derived from; (ii) the register response is the same whatever password is
submitted; (iii) the protected-balance response is unchanged when every
stored hash is replaced (its Prisma select reads only account id and
balance); (iv) the login response depends on the submitted password only
through the boolean verify outcome, so its body never embeds the password
or the hash. -/
theorem no_secret_leakage (db : DB) (salt newId accountId e p p1 p2 : String)
    (f : EncodedHash → EncodedHash) (now : Nat) (sub : String) :
    encodeHash (hashPassword salt p) ≠ p ∧
    (register db salt newId accountId (some ⟨some e, some p1⟩)).1 =
      (register db salt newId accountId (some ⟨some e, some p2⟩)).1 ∧
    balanceHandler (maskHashes f db) sub = balanceHandler db sub ∧
    (∀ u, findByEmail db e = some u →
      verifyPassword p1 u.hashedPassword = verifyPassword p2 u.hashedPassword →
      login db now (some ⟨some e, some p1⟩) = login db now (some ⟨some e, some p2⟩)) := by
  refine ⟨?_, ?_, ?_, ?_⟩
  · intro h
    have hlen := congrArg String.length h
    have h1 : "$".length = 1 := rfl
    have h2 : ":".length = 1 := rfl
    have h3 : (toString (4 : Nat)).length = 1 := rfl
    simp [encodeHash, hashPassword, mockDigest, String.length_append] at hlen
    omega
  · cases h : db.users.any (fun u => u.email == e) <;>
      simp [register, createUser, h]
  · cases hf : findById db sub with
    | none =>
      unfold balanceHandler
      rw [findById_maskHashes, hf]
      rfl
    | some u =>
      unfold balanceHandler
      rw [findById_maskHashes, hf]
      rfl
  · intro u hf hv
    cases hb : verifyPassword p1 u.hashedPassword with
    | false => simp [login, loginTry, hf, hb, hb ▸ hv.symm]
    | true => simp [login, loginTry, hf, hb, hb ▸ hv.symm]

/-- C7 witness: on the sample store, two different wrong passwords for
`a@b.com` produce identical login responses, and the encoded hash of
`pw` differs from `pw`. -/
theorem no_secret_leakage_witness :
    encodeHash (hashPassword "s" "pw") ≠ "pw" ∧
    login sampleDB 100 (some ⟨some "a@b.com", some "wrong1"⟩) =
      login sampleDB 100 (some ⟨some "a@b.com", some "wrong2"⟩) := by
  have h := no_secret_leakage sampleDB "s" "u9" "acc9" "a@b.com" "pw" "wrong1" "wrong2"
    id 100 "u1"
  exact ⟨h.1, h.2.2.2 ⟨"u1", "a@b.com", hashPassword "s1" "right"⟩ (by decide) (by decide)⟩

end Auth
